import Mathlib

/-!
Box breathing session engine (src/app.js)

A shallow embedding of the session state machine of `src/app.js`: the `state`
object, the module-level timer variables, the command handlers
(`togglePlay`, `resetToStart`, `startWithPreset`, the two setters) and the
callback that `startInterval` hands to `setInterval`.

Conventions of the embedding:
* JavaScript numbers that only ever hold integers are `Nat` or `Int`
  (exact below 2^53); timestamps read from `performance.now()` are exact
  rationals, and one handler invocation reads the clock once.
* `interval` and `animationFrameId` record whether a timer, respectively a
  requested animation frame, is pending; `clearInterval` and
  `cancelAnimationFrame` set them to `false`.
* DOM rendering, the painting calls on the canvas, audio and the wake lock
  are outputs of the handlers; they do not write to the session state and
  are left out. Of `drawScene` the embedding keeps everything up to the
  painting: the early returns and the computed geometry.
* Fractional numbers are exact rationals; `Math.sin`, `Math.cos` and
  `Math.PI` are parameters of the drawing functions.
-/

namespace Box5n4

/-- The `state` object of app.js (lines 12-28) together with the module-level
variables `interval`, `animationFrameId` and `lastStateUpdate` (lines 150-152). -/
structure State where
  isPlaying : Bool
  count : Nat
  countdown : Int
  totalTime : Nat
  soundEnabled : Bool
  timeLimit : String
  sessionComplete : Bool
  timeLimitReached : Bool
  phaseTime : Int
  pulseStartTime : Option ℚ
  devicePixelRatio : ℚ
  viewportWidth : ℚ
  viewportHeight : ℚ
  prefersReducedMotion : Bool
  hasStarted : Bool
  interval : Bool
  animationFrameId : Bool
  lastStateUpdate : Option ℚ
deriving DecidableEq

/-- The value of `Math.min(window.devicePixelRatio || 1, 2.5)` (lines 23, 81). -/
def pixelRatio (dpr : ℚ) : ℚ :=
  min (if dpr = 0 then 1 else dpr) (5 / 2)

/-- The state at load time (lines 12-28, 117): the viewport size, the device
pixel ratio and the motion preference come from the browser. -/
def initial (width height dpr : ℚ) (reducedMotion : Bool) : State :=
  { isPlaying := false
    count := 0
    countdown := 4
    totalTime := 0
    soundEnabled := false
    timeLimit := ""
    sessionComplete := false
    timeLimitReached := false
    phaseTime := 4
    pulseStartTime := none
    devicePixelRatio := pixelRatio dpr
    viewportWidth := width
    viewportHeight := height
    prefersReducedMotion := reducedMotion
    hasStarted := false
    interval := false
    animationFrameId := false
    lastStateUpdate := none }

/-- White space skipped by `parseInt` (ECMAScript StrWhiteSpaceChar). -/
def isStrWhiteSpaceChar (c : Char) : Bool :=
  c.toNat ∈ [9, 10, 11, 12, 13, 32, 160, 5760, 8192, 8193, 8194, 8195, 8196, 8197,
    8198, 8199, 8200, 8201, 8202, 8232, 8233, 8239, 8287, 12288, 65279]

/-- The numeric value of a character read as a digit of some radix up to 36. -/
def digitValue (c : Char) : Option Nat :=
  if 48 ≤ c.toNat ∧ c.toNat ≤ 57 then some (c.toNat - 48)
  else if 97 ≤ c.toNat ∧ c.toNat ≤ 122 then some (c.toNat - 87)
  else if 65 ≤ c.toNat ∧ c.toNat ≤ 90 then some (c.toNat - 55)
  else none

/-- The longest prefix of radix digits, as a number; `acc` is `none` until a
digit has been read. -/
def parseDigits (radix : Nat) : List Char → Option Nat → Option Nat
  | [], acc => acc
  | c :: cs, acc =>
    match digitValue c with
    | some d =>
      if d < radix then parseDigits radix cs (some (acc.getD 0 * radix + d)) else acc
    | none => acc

/-- The sign prefix read by `parseInt`: whether it is a minus, and the rest. -/
def stripSign : List Char → Bool × List Char
  | '-' :: r => (true, r)
  | '+' :: r => (false, r)
  | cs => (false, cs)

/-- The radix prefix read by `parseInt` without a radix argument. -/
def stripRadix : List Char → Nat × List Char
  | '0' :: 'x' :: r => (16, r)
  | '0' :: 'X' :: r => (16, r)
  | cs => (10, cs)

/-- JavaScript `parseInt(str)` with no radix argument; `none` is `NaN`. -/
def parseInt (str : String) : Option Int :=
  let signed := stripSign (str.data.dropWhile isStrWhiteSpaceChar)
  let based := stripRadix signed.2
  match parseDigits based.1 based.2 none with
  | none => none
  | some n => some (if signed.1 then -(n : Int) else (n : Int))

/-- The halt branch of `togglePlay` (lines 200-211). -/
def togglePlayHalt (s : State) : State :=
  { s with
    interval := false
    animationFrameId := false
    totalTime := 0
    countdown := s.phaseTime
    count := 0
    sessionComplete := false
    timeLimitReached := false
    hasStarted := false
    pulseStartTime := none }

/-- The call `startInterval()` up to arming the timer (lines 266-268). -/
def startInterval (s : State) (now : ℚ) : State :=
  { s with interval := true, lastStateUpdate := some now }

/-- The state effect of `animate()` (lines 502-513): a frame is requested
while the session is playing. -/
def animate (s : State) : State :=
  if s.isPlaying then { s with animationFrameId := true } else s

/-- The start branch of `togglePlay` (lines 183-198). -/
def togglePlayStart (s : State) (now : ℚ) : State :=
  animate (startInterval
    { s with
      hasStarted := true
      totalTime := 0
      countdown := s.phaseTime
      count := 0
      sessionComplete := false
      timeLimitReached := false
      pulseStartTime := some now } now)

/-- The handler `togglePlay` (lines 180-214). -/
def togglePlay (s : State) (now : ℚ) : State :=
  let s1 := { s with isPlaying := !s.isPlaying }
  if s1.isPlaying then togglePlayStart s1 now else togglePlayHalt s1

/-- The handler `resetToStart` (lines 216-232). -/
def resetToStart (s : State) : State :=
  { s with
    isPlaying := false
    totalTime := 0
    countdown := s.phaseTime
    count := 0
    sessionComplete := false
    timeLimit := ""
    timeLimitReached := false
    pulseStartTime := none
    hasStarted := false
    interval := false
    animationFrameId := false }

/-- The handler `toggleSound` (lines 234-237). -/
def toggleSound (s : State) : State :=
  { s with soundEnabled := !s.soundEnabled }

/-- The handler `handleTimeLimitChange` (lines 239-241): the input value with
every character other than a decimal digit removed. -/
def handleTimeLimitChange (s : State) (value : String) : State :=
  { s with
    timeLimit := String.mk (value.data.filter fun c => 48 ≤ c.toNat ∧ c.toNat ≤ 57) }

/-- The handler `startWithPreset` (lines 243-263). -/
def startWithPreset (minutes : Nat) (s : State) (now : ℚ) : State :=
  animate (startInterval
    { s with
      timeLimit := toString minutes
      isPlaying := true
      totalTime := 0
      countdown := s.phaseTime
      count := 0
      sessionComplete := false
      timeLimitReached := false
      pulseStartTime := some now
      hasStarted := true } now)

/-- The input handler of the phase-time slider (lines 653-657); `value` is
`parseInt(this.value)`. -/
def phaseTimeInput (s : State) (value : Int) : State :=
  { s with phaseTime := value, countdown := value }

/-- Lines 270-275 of the interval callback: the limit flag. -/
def tickLimit (s : State) : State :=
  if s.timeLimit ≠ "" ∧ s.timeLimitReached = false then
    match parseInt s.timeLimit with
    | some minutes =>
      if minutes * 60 ≤ (s.totalTime : Int) then { s with timeLimitReached := true } else s
    | none => s
  else s

/-- Lines 276-291 of the interval callback: the countdown and the phase. -/
def tickPhase (s : State) (now : ℚ) : State :=
  if s.countdown = 1 then
    let s1 :=
      { s with count := (s.count + 1) % 4, pulseStartTime := some now, countdown := s.phaseTime }
    if s1.count = 3 ∧ s1.timeLimitReached = true then
      { s1 with
        sessionComplete := true
        isPlaying := false
        hasStarted := false
        interval := false
        animationFrameId := false }
    else s1
  else { s with countdown := s.countdown - 1 }

/-- The callback that `startInterval` passes to `setInterval` (lines 268-294). -/
def tickCallback (s : State) (now : ℚ) : State :=
  { tickPhase (tickLimit { s with totalTime := s.totalTime + 1 }) now with
    lastStateUpdate := some now }

/-- The callback applied once for each timestamp of the list, in order. -/
def ticks (s : State) (nows : List ℚ) : State :=
  nows.foldl tickCallback s

/-- The timer of `setInterval`: it runs the callback only while it is armed. -/
def intervalFires (s : State) (now : ℚ) : State :=
  if s.interval then tickCallback s now else s

/-- The function `updateMotionPreference` (lines 105-110). -/
def updateMotionPreference (s : State) (isMatch : Bool) : State :=
  { s with prefersReducedMotion := isMatch }

/-- The state effect of `resizeCanvas` (lines 72-101). -/
def resizeCanvas (s : State) (width height dpr : ℚ) : State :=
  { s with viewportWidth := width, viewportHeight := height, devicePixelRatio := pixelRatio dpr }

/-- What can happen to the page: a handler is called, or the callback runs. -/
inductive Event where
  | togglePlay (now : ℚ)
  | resetToStart
  | toggleSound
  | handleTimeLimitChange (value : String)
  | startWithPreset (minutes : Nat) (now : ℚ)
  | phaseTimeInput (value : Int)
  | tick (now : ℚ)
  | updateMotionPreference (isMatch : Bool)
  | resizeCanvas (width height dpr : ℚ)

/-- The state after an event. -/
def step (s : State) : Event → State
  | .togglePlay now => togglePlay s now
  | .resetToStart => resetToStart s
  | .toggleSound => toggleSound s
  | .handleTimeLimitChange value => handleTimeLimitChange s value
  | .startWithPreset minutes now => startWithPreset minutes s now
  | .phaseTimeInput value => phaseTimeInput s value
  | .tick now => tickCallback s now
  | .updateMotionPreference isMatch => updateMotionPreference s isMatch
  | .resizeCanvas width height dpr => resizeCanvas s width height dpr

/-- The slider is a range control with `min="3" max="6" step="1"` (line 602),
so its handler only receives 3, 4, 5 or 6; other events carry any data. -/
def Event.wellFormed : Event → Prop
  | .phaseTimeInput value => 3 ≤ value ∧ value ≤ 6
  | _ => True

/-- The state after a list of events, in order. -/
def run (s : State) (events : List Event) : State :=
  events.foldl step s

/-- The states the page can be in: the load-time state, and every state that
follows a reachable one by a handler call or a callback run. Calls are not
restricted to the moments the page offers them, so this set contains every
state the page really reaches. -/
inductive Reachable : State → Prop where
  | init (width height dpr : ℚ) (reducedMotion : Bool) :
      Reachable (initial width height dpr reducedMotion)
  | step {s : State} (e : Event) : Reachable s → e.wellFormed → Reachable (step s e)

/-- The session part of the state: `isPlaying`, `hasStarted`, `count`,
`countdown`, `totalTime`, `timeLimitReached`, `sessionComplete`. -/
def sessionView (s : State) : Bool × Bool × Nat × Int × Nat × Bool × Bool :=
  (s.isPlaying, s.hasStarted, s.count, s.countdown, s.totalTime, s.timeLimitReached,
    s.sessionComplete)

/-- What the interval callback reads and writes of the session: the session
part of the state with the two configuration fields. -/
def timerView (s : State) : (Bool × Bool × Nat × Int × Nat × Bool × Bool) × String × Int :=
  (sessionView s, s.timeLimit, s.phaseTime)

/-- A session started by `togglePlay` from the load-time state after the
slider was set to `phase` and `limit` was typed into the time-limit field. -/
def startedSession (phase : Int) (limit : String) : State :=
  togglePlay (handleTimeLimitChange (phaseTimeInput (initial 0 0 1 false) phase) limit) 0

/-- The math functions of the browser that the drawing code calls, taken as
given: `Math.sin`, `Math.cos` and the constant `Math.PI`. -/
structure MathFns where
  sin : ℚ → ℚ
  cos : ℚ → ℚ
  pi : ℚ

/-- The sizes of the canvas element that `drawScene` falls back on (lines
300-301). -/
structure Canvas where
  clientWidth : ℚ
  clientHeight : ℚ
  width : ℚ
  height : ℚ

/-- JavaScript `a || b` on numbers: `a` unless it is zero. -/
def orElse (a b : ℚ) : ℚ :=
  if a = 0 then b else a

/-- The progress that `animate` passes to `drawScene` (lines 503-508), with
timestamps in milliseconds; `none` when `animate` returns at line 503, or
when `lastStateUpdate` is still undefined. -/
def animateProgress (s : State) (now : ℚ) : Option ℚ :=
  if s.isPlaying then
    match s.lastStateUpdate with
    | some last =>
      let elapsed := (now - last) / 1000
      let effectiveCountdown := (s.countdown : ℚ) - elapsed
      let progress := ((s.phaseTime : ℚ) - effectiveCountdown) / (s.phaseTime : ℚ)
      some (max 0 (min 1 progress))
    | none => none
  else none

/-- The width `drawScene` works with (line 300). -/
def sceneWidth (c : Canvas) (s : State) : ℚ :=
  orElse (orElse s.viewportWidth c.clientWidth) c.width

/-- The height `drawScene` works with (line 301). -/
def sceneHeight (c : Canvas) (s : State) : ℚ :=
  orElse (orElse s.viewportHeight c.clientHeight) c.height

/-- The constant `sizeWithoutBreath` of `drawScene` (lines 320-322). -/
def sizeWithoutBreath (c : Canvas) (s : State) : ℚ :=
  min (min (sceneWidth c s) (sceneHeight c s) * (55 / 100)) (sceneHeight c s - 20 * 2)

/-- The variable `breathInfluence` of `drawScene` (lines 330-339). -/
def breathInfluence (m : MathFns) (s : State) (easedProgress : ℚ) (phase : Nat) (now : ℚ) : ℚ :=
  if phase = 0 then easedProgress
  else if phase = 2 then 1 - easedProgress
  else if (!s.prefersReducedMotion) = true then
    3 / 10 + 2 / 10 * (1 / 2 + 1 / 2 * m.sin (now / 350))
  else 3 / 10

/-- The variable `pulseBoost` of `drawScene` (lines 341-347). -/
def pulseBoost (m : MathFns) (s : State) (now : ℚ) : ℚ :=
  if (!s.prefersReducedMotion) = true then
    match s.pulseStartTime with
    | some start =>
      let pulseElapsed := (now - start) / 1000
      if pulseElapsed < 1 / 2 then m.sin (pulseElapsed / (1 / 2) * m.pi) * (8 / 10) else 0
    | none => 0
  else 0

/-- The palette `phaseColors` (line 53). -/
def phaseColors : List String :=
  ["#ff9f43", "#feca57", "#54a0ff", "#5ed5a8"]

/-- What `drawScene` computes before it paints: the geometry of the square,
the position and radius of the dot, the accent colour and the trail flag. -/
structure DrawPlan where
  easedProgress : ℚ
  breathInfluence : ℚ
  pulseBoost : ℚ
  size : ℚ
  adjustedLeft : ℚ
  adjustedTop : ℚ
  cornerRadius : ℚ
  currentX : ℚ
  currentY : ℚ
  radius : ℚ
  accentColor : String
  shouldShowTrail : Bool

/-- How a call of `drawScene` ends: it returns at line 303 without touching the
canvas, it clears the canvas and returns at line 315 (nothing is drawn), it
throws because `points[phase]` is undefined, or it paints the plan. -/
inductive DrawResult where
  | skipped
  | cleared
  | typeError
  | drawn (plan : DrawPlan)

/-- The function `drawScene` (lines 297-495) up to the painting calls. -/
def drawScene (m : MathFns) (c : Canvas) (s : State) (progress : ℚ) (phase : Nat)
    (showTrail : Bool) (timestamp : ℚ) : DrawResult :=
  let width := sceneWidth c s
  let height := sceneHeight c s
  if width = 0 ∨ height = 0 then DrawResult.skipped
  else if s.hasStarted = false ∧ s.sessionComplete = false then DrawResult.cleared
  else
    let clampedProgress := max 0 (min 1 progress)
    let easedProgress := 1 / 2 - m.cos (m.pi * clampedProgress) / 2
    let topMargin : ℚ := 20
    let verticalOffset := min (height * (12 / 100)) 80
    let preferredTop := height / 2 + verticalOffset - sizeWithoutBreath c s / 2
    let top := max topMargin (min preferredTop (height - sizeWithoutBreath c s - topMargin))
    let left := (width - sizeWithoutBreath c s) / 2
    let now := timestamp
    let allowMotion := !s.prefersReducedMotion
    let influence := breathInfluence m s easedProgress phase now
    let boost := pulseBoost m s now
    let size := sizeWithoutBreath c s * (1 + 6 / 100 * influence + 2 / 100 * boost)
    let adjustedLeft := left + (sizeWithoutBreath c s - size) / 2
    let adjustedTop := top + (sizeWithoutBreath c s - size) / 2
    let cornerRadius := size * (8 / 100)
    let points : List (ℚ × ℚ) :=
      [(adjustedLeft + cornerRadius, adjustedTop + size - cornerRadius),
        (adjustedLeft + cornerRadius, adjustedTop + cornerRadius),
        (adjustedLeft + size - cornerRadius, adjustedTop + cornerRadius),
        (adjustedLeft + size - cornerRadius, adjustedTop + size - cornerRadius)]
    match points.get? phase, points.get? ((phase + 1) % 4) with
    | some startPoint, some endPoint =>
      let baseRadius := max 6 (size * (28 / 1000))
      let radius := baseRadius * (1 + 3 / 10 * influence + 2 / 10 * boost)
      DrawResult.drawn
        { easedProgress := easedProgress
          breathInfluence := influence
          pulseBoost := boost
          size := size
          adjustedLeft := adjustedLeft
          adjustedTop := adjustedTop
          cornerRadius := cornerRadius
          currentX := startPoint.1 + easedProgress * (endPoint.1 - startPoint.1)
          currentY := startPoint.2 + easedProgress * (endPoint.2 - startPoint.2)
          radius :=
            if allowMotion = true ∧ (phase = 1 ∨ phase = 3) then
              radius + baseRadius * (1 / 10) * (1 / 2 + 1 / 2 * m.sin (now / 180))
            else radius
          accentColor := (phaseColors.get? phase).getD "#ff9f43"
          shouldShowTrail := allowMotion && showTrail }
    | _, _ => DrawResult.typeError

/-- The call of `drawScene` made while the session is not playing (lines 99,
108 and 663): progress 1 for a completed session and 0 otherwise, the phase
of the state, no trail. -/
def idleDraw (m : MathFns) (c : Canvas) (s : State) (now : ℚ) : DrawResult :=
  drawScene m c s (if s.sessionComplete then 1 else 0) s.count false now

/-- The call of `drawScene` made by `animate` (line 510); `none` when
`animate` returns without drawing. -/
def animateDraw (m : MathFns) (c : Canvas) (s : State) (now : ℚ) : Option DrawResult :=
  (animateProgress s now).map fun progress => drawScene m c s progress s.count s.isPlaying now

/-- The number a string of decimal digits stands for. -/
def decimalValue (digits : List Char) : Nat :=
  digits.foldl (fun acc c => acc * 10 + (c.toNat - 48)) 0

/-- The closed form of the completion tick: the first tick number from
`max 1 (60 * L)` on, the tick at which a limit of `L` minutes is noticed,
that leaves the remainder `3 * P` on division by `4 * P`. -/
def completionTick (P L : Nat) : Nat :=
  max 1 (60 * L) + (7 * P - max 1 (60 * L) % (4 * P)) % (4 * P)

/-- A session completes exactly at tick `T`: it is still running after every
smaller number of callback runs, and after `T` runs it is complete, stopped,
in phase 3 with a full countdown of `P` and `T` seconds on the clock. -/
def CompletesAtTick (s : State) (P T : Nat) : Prop :=
  (∀ nows : List ℚ, nows.length < T →
      (ticks s nows).isPlaying = true ∧ (ticks s nows).sessionComplete = false) ∧
    ∀ nows : List ℚ, nows.length = T →
      (ticks s nows).sessionComplete = true ∧ (ticks s nows).isPlaying = false ∧
        (ticks s nows).count = 3 ∧ (ticks s nows).countdown = P ∧
        (ticks s nows).totalTime = T

/-- A session with phase duration `P` and a limit of `L` minutes that has
seen `n` callback runs and is still running: the phase is `n / P` modulo 4,
the countdown is `P` less the seconds spent in the phase, and the limit flag
is set once a run has found `60 * L` seconds or more on the clock. -/
def RunningAt (P L n : Nat) (s : State) : Prop :=
  s.isPlaying = true ∧ s.sessionComplete = false ∧ s.count = (n / P) % 4 ∧
    s.countdown = (P : Int) - ((n % P : Nat) : Int) ∧ s.totalTime = n ∧
    (s.timeLimitReached = true ↔ 1 ≤ n ∧ 60 * L ≤ n) ∧ s.phaseTime = (P : Int) ∧
    s.timeLimit ≠ "" ∧ parseInt s.timeLimit = some (L : Int)

/-! Basic facts -/

theorem parseInt_examples :
    parseInt "0" = some 0 ∧ parseInt "10" = some 10 ∧ parseInt "007" = some 7 ∧
      parseInt " -0x1f" = some (-31) ∧ parseInt "" = none ∧ parseInt "x1" = none := by
  decide

theorem togglePlay_of_idle (s : State) (now : ℚ) (h : s.isPlaying = false) :
    togglePlay s now = togglePlayStart { s with isPlaying := true } now := by
  simp [togglePlay, h]

theorem togglePlay_of_playing (s : State) (now : ℚ) (h : s.isPlaying = true) :
    togglePlay s now = togglePlayHalt { s with isPlaying := false } := by
  simp [togglePlay, h]

theorem ticks_nil (s : State) : ticks s [] = s := rfl

theorem ticks_cons (s : State) (now : ℚ) (nows : List ℚ) :
    ticks s (now :: nows) = ticks (tickCallback s now) nows := rfl

theorem ticks_append (s : State) (l₁ l₂ : List ℚ) :
    ticks s (l₁ ++ l₂) = ticks (ticks s l₁) l₂ := by
  simp [ticks, List.foldl_append]

theorem tickLimit_flag_of_true (s : State) (h : s.timeLimitReached = true) :
    (tickLimit s).timeLimitReached = true := by
  simp [tickLimit, h]

theorem tickPhase_flag (s : State) (now : ℚ) :
    (tickPhase s now).timeLimitReached = s.timeLimitReached := by
  unfold tickPhase
  dsimp only
  split_ifs <;> rfl

theorem tickCallback_flag_of_true (s : State) (now : ℚ) (h : s.timeLimitReached = true) :
    (tickCallback s now).timeLimitReached = true := by
  have h1 : (tickLimit { s with totalTime := s.totalTime + 1 }).timeLimitReached = true :=
    tickLimit_flag_of_true _ h
  simpa [tickCallback, tickPhase_flag] using h1

theorem ticks_flag_of_true (nows : List ℚ) :
    ∀ s : State, s.timeLimitReached = true → (ticks s nows).timeLimitReached = true := by
  induction nows with
  | nil => intro s h; exact h
  | cons now rest ih =>
    intro s h
    rw [ticks_cons]
    exact ih _ (tickCallback_flag_of_true s now h)

/-- The limit step writes the limit flag only. -/
theorem tickLimit_eq (s : State) :
    tickLimit s = { s with timeLimitReached := (tickLimit s).timeLimitReached } := by
  unfold tickLimit
  split_ifs
  · split
    · split_ifs <;> rfl
    · rfl
  · rfl

/-- The limit flag after the limit step depends on the limit, the flag and
the elapsed time only. -/
theorem tickLimit_flag_congr (s s' : State) (h8 : s.timeLimit = s'.timeLimit)
    (h6 : s.timeLimitReached = s'.timeLimitReached) (h5 : s.totalTime = s'.totalTime) :
    (tickLimit s).timeLimitReached = (tickLimit s').timeLimitReached := by
  unfold tickLimit
  rw [h8, h6, h5]
  split_ifs
  · cases parseInt s'.timeLimit with
    | none => exact h6
    | some m =>
      dsimp only
      split_ifs
      · rfl
      · exact h6
  · exact h6

/-- The interval callback, field by field. -/
theorem tickCallback_eq (s : State) (now : ℚ) :
    tickCallback s now =
      { s with
        totalTime := s.totalTime + 1
        timeLimitReached := (tickLimit { s with totalTime := s.totalTime + 1 }).timeLimitReached
        count := if s.countdown = 1 then (s.count + 1) % 4 else s.count
        countdown := if s.countdown = 1 then s.phaseTime else s.countdown - 1
        pulseStartTime := if s.countdown = 1 then some now else s.pulseStartTime
        sessionComplete :=
          if s.countdown = 1 ∧ (s.count + 1) % 4 = 3 ∧
              (tickLimit { s with totalTime := s.totalTime + 1 }).timeLimitReached = true
          then true else s.sessionComplete
        isPlaying :=
          if s.countdown = 1 ∧ (s.count + 1) % 4 = 3 ∧
              (tickLimit { s with totalTime := s.totalTime + 1 }).timeLimitReached = true
          then false else s.isPlaying
        hasStarted :=
          if s.countdown = 1 ∧ (s.count + 1) % 4 = 3 ∧
              (tickLimit { s with totalTime := s.totalTime + 1 }).timeLimitReached = true
          then false else s.hasStarted
        interval :=
          if s.countdown = 1 ∧ (s.count + 1) % 4 = 3 ∧
              (tickLimit { s with totalTime := s.totalTime + 1 }).timeLimitReached = true
          then false else s.interval
        animationFrameId :=
          if s.countdown = 1 ∧ (s.count + 1) % 4 = 3 ∧
              (tickLimit { s with totalTime := s.totalTime + 1 }).timeLimitReached = true
          then false else s.animationFrameId
        lastStateUpdate := some now } := by
  unfold tickCallback
  rw [tickLimit_eq]
  generalize (tickLimit { s with totalTime := s.totalTime + 1 }).timeLimitReached = r
  unfold tickPhase
  dsimp only
  by_cases h1 : s.countdown = 1
  · by_cases h3 : (s.count + 1) % 4 = 3
    · cases r <;> simp [h1, h3]
    · simp [h1, h3]
  · simp [h1]

/-- The callback reads and writes the timer view only: two states with the
same view have the same view after a callback run, whatever the clock says. -/
theorem tickCallback_timerView (s s' : State) (now now' : ℚ)
    (h : timerView s = timerView s') :
    timerView (tickCallback s now) = timerView (tickCallback s' now') := by
  simp only [timerView, sessionView, Prod.mk.injEq] at h
  obtain ⟨⟨h1, h2, h3, h4, h5, h6, h7⟩, h8, h9⟩ := h
  have hr : (tickLimit { s with totalTime := s.totalTime + 1 }).timeLimitReached =
      (tickLimit { s' with totalTime := s'.totalTime + 1 }).timeLimitReached :=
    tickLimit_flag_congr _ _ h8 h6 (by simp [h5])
  rw [tickCallback_eq, tickCallback_eq, hr]
  simp only [timerView, sessionView, h1, h2, h3, h4, h5, h7, h8, h9]

theorem ticks_timerView (nows nows' : List ℚ) :
    ∀ s s' : State, timerView s = timerView s' → nows.length = nows'.length →
      timerView (ticks s nows) = timerView (ticks s' nows') := by
  induction nows generalizing nows' with
  | nil =>
    intro s s' h hl
    cases nows' with
    | nil => exact h
    | cons _ _ => simp at hl
  | cons now rest ih =>
    intro s s' h hl
    cases nows' with
    | nil => simp at hl
    | cons now' rest' =>
      rw [ticks_cons, ticks_cons]
      exact ih rest' _ _ (tickCallback_timerView s s' now now' h) (by simpa using hl)

theorem reachable_run (events : List Event) :
    ∀ s : State, Reachable s → (∀ e ∈ events, e.wellFormed) → Reachable (run s events) := by
  induction events with
  | nil => intro s h _; exact h
  | cons e rest ih =>
    intro s h hw
    exact ih (step s e) (Reachable.step e h (hw e (List.mem_cons_self _ _)))
      (fun e' he' => hw e' (List.mem_cons_of_mem _ he'))

/-- In every reachable state the phase duration is 3 to 6 and the countdown
is between 1 and the phase duration. -/
theorem reachable_countdown {s : State} (h : Reachable s) :
    3 ≤ s.phaseTime ∧ s.phaseTime ≤ 6 ∧ 1 ≤ s.countdown ∧ s.countdown ≤ s.phaseTime := by
  induction h with
  | init width height dpr reducedMotion => simp [initial]
  | step e hs he ih =>
    obtain ⟨h3, h6, h1, hle⟩ := ih
    cases e with
    | togglePlay now =>
      simp only [step, togglePlay, togglePlayStart, togglePlayHalt, startInterval, animate]
      split_ifs <;> simp <;> omega
    | resetToStart => simp only [step, resetToStart]; omega
    | toggleSound => simp only [step, toggleSound]; omega
    | handleTimeLimitChange value => simp only [step, handleTimeLimitChange]; omega
    | startWithPreset minutes now =>
      simp only [step, startWithPreset, startInterval, animate]
      split_ifs <;> simp <;> omega
    | phaseTimeInput value =>
      simp only [Event.wellFormed] at he
      simp only [step, phaseTimeInput]; omega
    | tick now =>
      simp only [step, tickCallback_eq]
      split_ifs <;> omega
    | updateMotionPreference isMatch => simp only [step, updateMotionPreference]; omega
    | resizeCanvas width height dpr => simp only [step, resizeCanvas]; omega

/-- In every reachable state the timer is armed exactly while the session is
playing: each path that clears `isPlaying` also calls `clearInterval`. -/
theorem reachable_interval {s : State} (h : Reachable s) : s.interval = s.isPlaying := by
  induction h with
  | init width height dpr reducedMotion => simp [initial]
  | step e hs he ih =>
    cases e with
    | togglePlay now =>
      simp only [step, togglePlay, togglePlayStart, togglePlayHalt, startInterval, animate]
      split_ifs <;> simp_all
    | resetToStart => simp only [step, resetToStart]
    | toggleSound => simpa only [step, toggleSound] using ih
    | handleTimeLimitChange value => simpa only [step, handleTimeLimitChange] using ih
    | startWithPreset minutes now =>
      simp only [step, startWithPreset, startInterval, animate]
      split_ifs <;> simp_all
    | phaseTimeInput value => simpa only [step, phaseTimeInput] using ih
    | tick now =>
      simp only [step, tickCallback_eq]
      split_ifs <;> simp [ih]
    | updateMotionPreference isMatch => simpa only [step, updateMotionPreference] using ih
    | resizeCanvas width height dpr => simpa only [step, resizeCanvas] using ih

theorem timerView_fields {a b : State} (h : timerView a = timerView b) :
    a.isPlaying = b.isPlaying ∧ a.hasStarted = b.hasStarted ∧ a.count = b.count ∧
      a.countdown = b.countdown ∧ a.totalTime = b.totalTime ∧
      a.timeLimitReached = b.timeLimitReached ∧ a.sessionComplete = b.sessionComplete := by
  simp only [timerView, sessionView, Prod.mk.injEq] at h
  obtain ⟨⟨h1, h2, h3, h4, h5, h6, h7⟩, -, -⟩ := h
  exact ⟨h1, h2, h3, h4, h5, h6, h7⟩

/-- A session started by `togglePlay` looks to the timer like the reference
session with the same phase duration and time limit. -/
theorem togglePlay_timerView (s : State) (now : ℚ) (phase : Int) (limit : String)
    (hidle : s.isPlaying = false) (hphase : s.phaseTime = phase) (hlimit : s.timeLimit = limit)
    (hdigits : String.mk (limit.data.filter fun c => 48 ≤ c.toNat ∧ c.toNat ≤ 57) = limit) :
    timerView (togglePlay s now) = timerView (startedSession phase limit) := by
  simpa [timerView, sessionView, startedSession, togglePlay, togglePlayStart, startInterval,
    animate, handleTimeLimitChange, phaseTimeInput, initial, hidle, hphase, hlimit]
    using hdigits.symm

/-- Running the callback on a started session gives the same timer view as
running it equally often on the reference session. -/
theorem ticks_togglePlay_fields (s : State) (now : ℚ) (phase : Int) (limit : String)
    (hidle : s.isPlaying = false) (hphase : s.phaseTime = phase) (hlimit : s.timeLimit = limit)
    (hdigits : String.mk (limit.data.filter fun c => 48 ≤ c.toNat ∧ c.toNat ≤ 57) = limit)
    (nows : List ℚ) (n : Nat) (hn : nows.length = n) :
    timerView (ticks (togglePlay s now) nows) =
      timerView (ticks (startedSession phase limit) (List.replicate n 0)) :=
  ticks_timerView _ _ _ _ (togglePlay_timerView s now phase limit hidle hphase hlimit hdigits)
    (by simp [hn])

/-- In every reachable state a completed session is stopped and has its
limit flag set. -/
theorem reachable_complete {s : State} (h : Reachable s) :
    s.sessionComplete = true → s.isPlaying = false ∧ s.timeLimitReached = true := by
  induction h with
  | init width height dpr reducedMotion => intro hc; simp [initial] at hc
  | step e hs he ih =>
    intro hc
    cases e with
    | togglePlay now =>
      simp only [step, togglePlay, togglePlayStart, togglePlayHalt, startInterval, animate] at hc
      split_ifs at hc
    | resetToStart => simp [step, resetToStart] at hc
    | toggleSound => exact ih hc
    | handleTimeLimitChange value => exact ih hc
    | startWithPreset minutes now =>
      simp only [step, startWithPreset, startInterval, animate] at hc
      split_ifs at hc
    | phaseTimeInput value => exact ih hc
    | tick now =>
      simp only [step, tickCallback_eq] at hc ⊢
      split_ifs at hc ⊢ with hcond
      · exact ⟨rfl, hcond.2.2⟩
      · obtain ⟨i1, i2⟩ := ih hc
        exact ⟨i1, tickLimit_flag_of_true _ i2⟩
    | updateMotionPreference isMatch => exact ih hc
    | resizeCanvas width height dpr => exact ih hc

/-- A callback run that changes the phase leaves the countdown at the phase
duration. -/
theorem tickCallback_countdown_of_count_ne (s : State) (now : ℚ)
    (h : (tickCallback s now).count ≠ s.count) :
    (tickCallback s now).countdown = s.phaseTime := by
  rw [tickCallback_eq] at h ⊢
  dsimp only at h ⊢
  split_ifs at h ⊢ with h1
  · rfl
  · exact absurd rfl h

/-- In every reachable state `hasStarted` and `isPlaying` are equal. -/
theorem reachable_hasStarted {s : State} (h : Reachable s) : s.hasStarted = s.isPlaying := by
  induction h with
  | init width height dpr reducedMotion => simp [initial]
  | step e hs he ih =>
    cases e with
    | togglePlay now =>
      simp only [step, togglePlay, togglePlayStart, togglePlayHalt, startInterval, animate]
      split_ifs <;> simp_all
    | resetToStart => simp only [step, resetToStart]
    | toggleSound => simpa only [step, toggleSound] using ih
    | handleTimeLimitChange value => simpa only [step, handleTimeLimitChange] using ih
    | startWithPreset minutes now =>
      simp only [step, startWithPreset, startInterval, animate]
      split_ifs <;> simp_all
    | phaseTimeInput value => simpa only [step, phaseTimeInput] using ih
    | tick now =>
      simp only [step, tickCallback_eq]
      split_ifs <;> simp [ih]
    | updateMotionPreference isMatch => simpa only [step, updateMotionPreference] using ih
    | resizeCanvas width height dpr => simpa only [step, resizeCanvas] using ih

/-- The progress of `animate` for a playing state whose last update is known. -/
theorem animateProgress_of_playing (s : State) (now last : ℚ) (hplay : s.isPlaying = true)
    (hlast : s.lastStateUpdate = some last) :
    animateProgress s now =
      some (max 0 (min 1
        (((s.phaseTime : ℚ) - ((s.countdown : ℚ) - (now - last) / 1000)) / (s.phaseTime : ℚ)))) := by
  simp [animateProgress, hplay, hlast]

/-- With nothing started and nothing completed `drawScene` draws nothing. -/
theorem drawScene_of_idle (m : MathFns) (c : Canvas) (s : State) (progress : ℚ) (phase : Nat)
    (showTrail : Bool) (timestamp : ℚ) (hs : s.hasStarted = false)
    (hc : s.sessionComplete = false) :
    drawScene m c s progress phase showTrail timestamp =
      if sceneWidth c s = 0 ∨ sceneHeight c s = 0 then DrawResult.skipped
      else DrawResult.cleared := by
  unfold drawScene
  simp [hs, hc]

/-- A completed session is never answered by the draw-nothing branch. -/
theorem drawScene_of_complete (m : MathFns) (c : Canvas) (s : State) (progress : ℚ)
    (phase : Nat) (showTrail : Bool) (timestamp : ℚ) (hc : s.sessionComplete = true) :
    drawScene m c s progress phase showTrail timestamp ≠ DrawResult.cleared := by
  unfold drawScene
  dsimp only
  by_cases h1 : sceneWidth c s = 0 ∨ sceneHeight c s = 0
  · rw [if_pos h1]
    simp
  · rw [if_neg h1, if_neg (by simp [hc])]
    split
    · simp
    · simp

/-- Under reduced motion the breath influence of the Hold and Wait phases is
the constant 0.3. -/
theorem breathInfluence_reduced (m : MathFns) (s : State) (easedProgress now : ℚ) (phase : Nat)
    (hmotion : s.prefersReducedMotion = true) (hphase : phase = 1 ∨ phase = 3) :
    breathInfluence m s easedProgress phase now = 3 / 10 := by
  rcases hphase with rfl | rfl <;> simp [breathInfluence, hmotion]

/-- Under reduced motion there is no pulse boost. -/
theorem pulseBoost_reduced (m : MathFns) (s : State) (now : ℚ)
    (hmotion : s.prefersReducedMotion = true) : pulseBoost m s now = 0 := by
  simp [pulseBoost, hmotion]

/-- Under reduced motion a started session in the Hold or Wait phase is
painted with a square of the fixed size. -/
theorem drawScene_reduced_size (m : MathFns) (c : Canvas) (s : State)
    (progress timestamp : ℚ) (phase : Nat) (showTrail : Bool)
    (hmotion : s.prefersReducedMotion = true) (hstarted : s.hasStarted = true)
    (hphase : phase = 1 ∨ phase = 3) (hwidth : sceneWidth c s ≠ 0)
    (hheight : sceneHeight c s ≠ 0) :
    ∃ plan : DrawPlan,
      drawScene m c s progress phase showTrail timestamp = DrawResult.drawn plan ∧
        plan.size = sizeWithoutBreath c s * (1 + 6 / 100 * (3 / 10)) := by
  unfold drawScene
  dsimp only
  rw [if_neg (by simp [hwidth, hheight]), if_neg (by simp [hstarted])]
  rcases hphase with rfl | rfl
  · refine ⟨_, rfl, ?_⟩
    dsimp only
    rw [breathInfluence_reduced m s _ _ 1 hmotion (Or.inl rfl), pulseBoost_reduced m s _ hmotion]
    ring
  · refine ⟨_, rfl, ?_⟩
    dsimp only
    rw [breathInfluence_reduced m s _ _ 3 hmotion (Or.inr rfl), pulseBoost_reduced m s _ hmotion]
    ring

theorem digitValue_of_digit (c : Char) (h : 48 ≤ c.toNat ∧ c.toNat ≤ 57) :
    digitValue c = some (c.toNat - 48) := by
  simp [digitValue, h]

theorem parseDigits_digits (cs : List Char) :
    ∀ a : Nat, (∀ c ∈ cs, 48 ≤ c.toNat ∧ c.toNat ≤ 57) →
      parseDigits 10 cs (some a) =
        some (cs.foldl (fun acc c => acc * 10 + (c.toNat - 48)) a) := by
  induction cs with
  | nil => intro a _; rfl
  | cons c rest ih =>
    intro a h
    have hc := h c (List.mem_cons_self _ _)
    have hlt : c.toNat - 48 < 10 := by omega
    rw [parseDigits, digitValue_of_digit c hc]
    simp only [hlt, if_true, Option.getD_some, List.foldl_cons]
    exact ih _ (fun c' hc' => h c' (List.mem_cons_of_mem _ hc'))

/-- On a non-empty string of decimal digits `parseInt` gives its value. -/
theorem parseInt_digits (str : String) (hne : str.data ≠ [])
    (hdig : ∀ c ∈ str.data, 48 ≤ c.toNat ∧ c.toNat ≤ 57) :
    parseInt str = some (decimalValue str.data : Int) := by
  obtain ⟨cs⟩ := str
  cases cs with
  | nil => exact absurd rfl hne
  | cons c rest =>
    have hc : 48 ≤ c.toNat ∧ c.toNat ≤ 57 := hdig c (List.mem_cons_self _ _)
    have hspace : isStrWhiteSpaceChar c = false := by
      simp only [isStrWhiteSpaceChar, decide_eq_false_iff_not, List.mem_cons, List.mem_singleton,
        List.not_mem_nil, not_or, not_false_eq_true, and_true]
      refine ⟨?_, ?_, ?_, ?_, ?_, ?_, ?_, ?_, ?_, ?_, ?_, ?_, ?_, ?_, ?_, ?_, ?_, ?_, ?_, ?_,
        ?_, ?_, ?_, ?_, ?_⟩ <;> omega
    have hsign : stripSign (c :: rest) = (false, c :: rest) := by
      unfold stripSign
      split
      · rename_i heq
        have : c = '-' := (List.cons.inj heq).1
        rw [this] at hc
        exact absurd hc (by decide)
      · rename_i heq
        have : c = '+' := (List.cons.inj heq).1
        rw [this] at hc
        exact absurd hc (by decide)
      · rfl
    have hradix : stripRadix (c :: rest) = (10, c :: rest) := by
      unfold stripRadix
      split
      · rename_i r heq
        have h2 := (List.cons.inj heq).2
        have hx := hdig 'x' (by rw [h2]; simp)
        exact absurd hx (by decide)
      · rename_i r heq
        have h2 := (List.cons.inj heq).2
        have hx := hdig 'X' (by rw [h2]; simp)
        exact absurd hx (by decide)
      · rfl
    have hdrop : List.dropWhile isStrWhiteSpaceChar (c :: rest) = c :: rest := by
      rw [List.dropWhile_cons, hspace]
      simp
    have hparse : parseDigits 10 (c :: rest) none = some (decimalValue (c :: rest)) := by
      have hlt : c.toNat - 48 < 10 := by omega
      rw [parseDigits, digitValue_of_digit c hc]
      simp only [hlt, if_true, Option.getD_none, zero_mul, zero_add]
      rw [parseDigits_digits rest _ (fun c' hc' => hdig c' (List.mem_cons_of_mem _ hc'))]
      simp [decimalValue]
    simp only [parseInt, hdrop, hsign, hradix, hparse]
    simp

/-- With a limit of `L` minutes configured, the limit step leaves the flag
set exactly when it was set or `60 * L` seconds are on the clock. -/
theorem tickLimit_flag_iff (s : State) (L : Nat) (hne : s.timeLimit ≠ "")
    (hp : parseInt s.timeLimit = some (L : Int)) :
    (tickLimit s).timeLimitReached = true ↔
      (s.timeLimitReached = true ∨ 60 * L ≤ s.totalTime) := by
  unfold tickLimit
  by_cases hr : s.timeLimitReached = true
  · simp [hr]
  · have hr' : s.timeLimitReached = false := by simpa using hr
    rw [if_pos ⟨hne, hr'⟩, hp]
    dsimp only
    by_cases hle : 60 * L ≤ s.totalTime
    · rw [if_pos (by omega)]
      simp [hle]
    · rw [if_neg (by omega)]
      simp [hr', hle]

/-- One callback run on a running session: it completes the session when the
new tick number leaves the remainder `3 * P` modulo `4 * P` and the limit is
reached, and otherwise the session is running with one more tick counted. -/
theorem running_step (P L n : Nat) (s : State) (now : ℚ) (hP : 3 ≤ P ∧ P ≤ 6)
    (h : RunningAt P L n s) :
    ((n + 1) % (4 * P) = 3 * P ∧ 60 * L ≤ n + 1 →
        (tickCallback s now).sessionComplete = true ∧ (tickCallback s now).isPlaying = false ∧
          (tickCallback s now).count = 3 ∧ (tickCallback s now).countdown = (P : Int) ∧
          (tickCallback s now).totalTime = n + 1) ∧
      (¬((n + 1) % (4 * P) = 3 * P ∧ 60 * L ≤ n + 1) →
        RunningAt P L (n + 1) (tickCallback s now)) := by
  obtain ⟨h1, h2, h3, h4, h5, h6, h7, h8, h9⟩ := h
  have hflag : (tickLimit { s with totalTime := s.totalTime + 1 }).timeLimitReached = true ↔
      60 * L ≤ n + 1 := by
    rw [tickLimit_flag_iff { s with totalTime := s.totalTime + 1 } L h8 h9]
    dsimp only
    rw [h6, h5]
    omega
  rw [tickCallback_eq]
  generalize (tickLimit { s with totalTime := s.totalTime + 1 }).timeLimitReached = r at hflag ⊢
  unfold RunningAt
  dsimp only
  obtain ⟨hP3, hP6⟩ := hP
  constructor
  · rintro ⟨hmod, hlim⟩
    have hC : r = true := hflag.mpr hlim
    have hA : s.countdown = 1 := by interval_cases P <;> omega
    have hB : (s.count + 1) % 4 = 3 := by interval_cases P <;> omega
    simp only [hA, hB, hC, and_self, if_true, h5, h7]
  · intro hnot
    have hK : ¬(s.countdown = 1 ∧ (s.count + 1) % 4 = 3 ∧ r = true) := by
      rintro ⟨hA, hB, hC⟩
      apply hnot
      have := hflag.mp hC
      interval_cases P <;> omega
    simp only [if_neg hK]
    refine ⟨h1, h2, ?_, ?_, ?_, ?_, h7, h8, h9⟩
    · split_ifs <;> interval_cases P <;> omega
    · split_ifs <;> interval_cases P <;> omega
    · omega
    · rw [hflag]
      omega

/-- A running session stays running over any run of callbacks in which no tick
number meets the completion condition. -/
theorem running_ticks (P L : Nat) (hP : 3 ≤ P ∧ P ≤ 6) (nows : List ℚ) :
    ∀ (n : Nat) (s : State), RunningAt P L n s →
      (∀ t, n < t → t ≤ n + nows.length → ¬(t % (4 * P) = 3 * P ∧ 60 * L ≤ t)) →
      RunningAt P L (n + nows.length) (ticks s nows) := by
  induction nows with
  | nil => intro n s h _; simpa using h
  | cons now rest ih =>
    intro n s h hno
    have hlen : (now :: rest).length = rest.length + 1 := rfl
    rw [hlen] at hno
    have h1 : RunningAt P L (n + 1) (tickCallback s now) :=
      (running_step P L n s now hP h).2 (hno (n + 1) (by omega) (by omega))
    have h2 := ih (n + 1) _ h1 (fun t ht1 ht2 => hno t (by omega) (by omega))
    have e : n + (now :: rest).length = n + 1 + rest.length := by rw [hlen]; omega
    rw [ticks_cons, e]
    exact h2

/-- The closed form is the least tick number from `max 1 (60 * L)` on with
remainder `3 * P` modulo `4 * P`, and it lies in `[60 * L, 60 * L + 4 * P)`. -/
theorem completionTick_spec (P L : Nat) (hP : 3 ≤ P ∧ P ≤ 6) :
    max 1 (60 * L) ≤ completionTick P L ∧ completionTick P L % (4 * P) = 3 * P ∧
      (∀ t, max 1 (60 * L) ≤ t → t % (4 * P) = 3 * P → completionTick P L ≤ t) ∧
      60 * L ≤ completionTick P L ∧ completionTick P L < 60 * L + 4 * P := by
  obtain ⟨h3, h6⟩ := hP
  unfold completionTick
  interval_cases P
  all_goals refine ⟨by omega, by omega, fun t h1 h2 => by omega, by omega, by omega⟩

/-- A session that is running with no tick counted completes exactly at the
tick of the closed form. -/
theorem completes_of_running (P L : Nat) (hP : 3 ≤ P ∧ P ≤ 6) (s : State)
    (h0 : RunningAt P L 0 s) : CompletesAtTick s P (completionTick P L) := by
  obtain ⟨hge, hmod, hleast, hlow, -⟩ := completionTick_spec P L hP
  have hquiet : ∀ t, t < completionTick P L → ¬(t % (4 * P) = 3 * P ∧ 60 * L ≤ t) := by
    rintro t hlt ⟨ht1, ht2⟩
    have hpos : 1 ≤ t := by
      rcases Nat.eq_zero_or_pos t with h | h
      · rw [h] at ht1
        simp at ht1
        omega
      · exact h
    have := hleast t (max_le hpos ht2) ht1
    omega
  constructor
  · intro nows hlt
    have h := running_ticks P L hP nows 0 s h0 (fun t _ ht => hquiet t (by omega))
    exact ⟨h.1, h.2.1⟩
  · intro nows hlen
    rcases List.eq_nil_or_concat nows with rfl | ⟨front, last, rfl⟩
    · simp at hlen
      omega
    · have hfront : front.length + 1 = completionTick P L := by simpa using hlen
      have h := running_ticks P L hP front 0 s h0 (fun t _ ht => hquiet t (by omega))
      rw [Nat.zero_add] at h
      have hstep := (running_step P L front.length (ticks s front) last hP h).1
        ⟨by rw [hfront]; exact hmod, by rw [hfront]; exact hlow⟩
      rw [List.concat_eq_append, ticks_append, ticks_cons, ticks_nil]
      rw [hfront] at hstep
      exact hstep

theorem togglePlay_running (s : State) (now : ℚ) (P L : Nat) (hidle : s.isPlaying = false)
    (hphase : s.phaseTime = (P : Int)) (hne : s.timeLimit ≠ "")
    (hp : parseInt s.timeLimit = some (L : Int)) : RunningAt P L 0 (togglePlay s now) := by
  simp [RunningAt, togglePlay, togglePlayStart, startInterval, animate, hidle, hphase, hne, hp]

theorem startWithPreset_running (s : State) (now : ℚ) (P minutes : Nat)
    (hphase : s.phaseTime = (P : Int)) (hm : minutes = 2 ∨ minutes = 5 ∨ minutes = 10) :
    RunningAt P minutes 0 (startWithPreset minutes s now) := by
  have hparse : toString minutes ≠ "" ∧ parseInt (toString minutes) = some (minutes : Int) := by
    rcases hm with rfl | rfl | rfl <;> decide
  simp [RunningAt, startWithPreset, startInterval, animate, hphase, hparse.1, hparse.2]

/-! The claims -/

/-- C1 (counterexample). With phase duration 4 and time limit "0" the session
is not still running after 15 callback runs: the 12th run, which enters the
Wait phase, has already completed it, and it was running after the 11th. -/
theorem cutover_after_full_cycle_counterexample :
    ¬ ((ticks (startedSession 4 "0") (List.replicate 15 0)).isPlaying = true ∧
        (ticks (startedSession 4 "0") (List.replicate 15 0)).sessionComplete = false) ∧
      (ticks (startedSession 4 "0") (List.replicate 12 0)).sessionComplete = true ∧
      (ticks (startedSession 4 "0") (List.replicate 11 0)).sessionComplete = false := by
  decide

/-- C1 (amended). For every phase duration P in [3,6] and time limit "0", a
session started by `togglePlay` is still running (isPlaying = true,
sessionComplete = false) after every number of callback runs below 3*P, and
after exactly 3*P runs, on entering the Wait phase (count = 3), it has
sessionComplete = true and isPlaying = false. -/
theorem cutover_on_entering_wait (s : State) (now : ℚ) (P : Nat) (nows : List ℚ)
    (hP : 3 ≤ P ∧ P ≤ 6) (hphase : s.phaseTime = P) (hlimit : s.timeLimit = "0")
    (hidle : s.isPlaying = false) :
    (nows.length < 3 * P →
      (ticks (togglePlay s now) nows).isPlaying = true ∧
        (ticks (togglePlay s now) nows).sessionComplete = false) ∧
    (nows.length = 3 * P →
      (ticks (togglePlay s now) nows).sessionComplete = true ∧
        (ticks (togglePlay s now) nows).isPlaying = false ∧
        (ticks (togglePlay s now) nows).count = 3 ∧
        (ticks (togglePlay s now) nows).timeLimitReached = true) := by
  obtain ⟨h3, h6⟩ := hP
  have key := fun n hn =>
    timerView_fields
      (ticks_togglePlay_fields s now P "0" hidle hphase hlimit (by decide) nows n hn)
  constructor
  · intro hlt
    obtain ⟨e1, -, -, -, -, -, e7⟩ := key nows.length rfl
    rw [e1, e7]
    generalize nows.length = n at hlt
    interval_cases P <;> interval_cases n <;> decide
  · intro heq
    obtain ⟨e1, -, e3, -, -, e6, e7⟩ := key _ heq
    rw [e1, e3, e6, e7]
    interval_cases P <;> decide

/-- C1 (amended), at phase duration 4: running after 11 callback runs,
complete after 12. -/
theorem cutover_on_entering_wait_witness :
    ((ticks (togglePlay (handleTimeLimitChange (initial 0 0 1 false) "0") 7)
        (List.replicate 11 1)).isPlaying = true ∧
      (ticks (togglePlay (handleTimeLimitChange (initial 0 0 1 false) "0") 7)
        (List.replicate 11 1)).sessionComplete = false) ∧
    ((ticks (togglePlay (handleTimeLimitChange (initial 0 0 1 false) "0") 7)
        (List.replicate 12 1)).sessionComplete = true ∧
      (ticks (togglePlay (handleTimeLimitChange (initial 0 0 1 false) "0") 7)
        (List.replicate 12 1)).isPlaying = false ∧
      (ticks (togglePlay (handleTimeLimitChange (initial 0 0 1 false) "0") 7)
        (List.replicate 12 1)).count = 3 ∧
      (ticks (togglePlay (handleTimeLimitChange (initial 0 0 1 false) "0") 7)
        (List.replicate 12 1)).timeLimitReached = true) :=
  ⟨(cutover_on_entering_wait (handleTimeLimitChange (initial 0 0 1 false) "0") 7 4
      (List.replicate 11 1) ⟨by decide, by decide⟩ rfl (by decide) rfl).1 (by decide),
    (cutover_on_entering_wait (handleTimeLimitChange (initial 0 0 1 false) "0") 7 4
      (List.replicate 12 1) ⟨by decide, by decide⟩ rfl (by decide) rfl).2 (by decide)⟩

/-- C2. For every phase duration P in [3,6] and no time limit (timeLimit = ""),
P callback runs on a session started by `togglePlay` give count = 1,
countdown = P, totalTime = P and timeLimitReached = false. -/
theorem first_phase_without_limit (s : State) (now : ℚ) (P : Nat) (nows : List ℚ)
    (hP : 3 ≤ P ∧ P ≤ 6) (hphase : s.phaseTime = P) (hlimit : s.timeLimit = "")
    (hidle : s.isPlaying = false) (hlen : nows.length = P) :
    (ticks (togglePlay s now) nows).count = 1 ∧
      (ticks (togglePlay s now) nows).countdown = P ∧
      (ticks (togglePlay s now) nows).totalTime = P ∧
      (ticks (togglePlay s now) nows).timeLimitReached = false := by
  obtain ⟨h3, h6⟩ := hP
  obtain ⟨-, -, e3, e4, e5, e6, -⟩ :=
    timerView_fields
      (ticks_togglePlay_fields s now P "" hidle hphase hlimit (by decide) nows P hlen)
  rw [e3, e4, e5, e6]
  interval_cases P <;> decide

/-- C2 at the load-time state, phase duration 4. -/
theorem first_phase_without_limit_witness :
    (ticks (togglePlay (initial 0 0 1 false) 7) [8, 9, 10, 11]).count = 1 ∧
      (ticks (togglePlay (initial 0 0 1 false) 7) [8, 9, 10, 11]).countdown = ((4 : Nat) : Int) ∧
      (ticks (togglePlay (initial 0 0 1 false) 7) [8, 9, 10, 11]).totalTime = 4 ∧
      (ticks (togglePlay (initial 0 0 1 false) 7) [8, 9, 10, 11]).timeLimitReached = false :=
  first_phase_without_limit (initial 0 0 1 false) 7 4 [8, 9, 10, 11] ⟨by decide, by decide⟩
    rfl rfl rfl rfl

/-- C3. From every non-running state with phase duration P, in [3,6] or not,
starting a session by `togglePlay`, and likewise by `startWithPreset`, gives
isPlaying = true, hasStarted = true, count = 0, countdown = P, totalTime = 0,
timeLimitReached = false and sessionComplete = false, whatever was there. -/
theorem start_resets_session (s : State) (now : ℚ) (minutes : Nat) (P : Int)
    (hphase : s.phaseTime = P) (hidle : s.isPlaying = false) :
    ((togglePlay s now).isPlaying = true ∧ (togglePlay s now).hasStarted = true ∧
      (togglePlay s now).count = 0 ∧ (togglePlay s now).countdown = P ∧
      (togglePlay s now).totalTime = 0 ∧ (togglePlay s now).timeLimitReached = false ∧
      (togglePlay s now).sessionComplete = false) ∧
    ((startWithPreset minutes s now).isPlaying = true ∧
      (startWithPreset minutes s now).hasStarted = true ∧
      (startWithPreset minutes s now).count = 0 ∧
      (startWithPreset minutes s now).countdown = P ∧
      (startWithPreset minutes s now).totalTime = 0 ∧
      (startWithPreset minutes s now).timeLimitReached = false ∧
      (startWithPreset minutes s now).sessionComplete = false) := by
  constructor
  · simp [togglePlay, togglePlayStart, startInterval, animate, hidle, hphase]
  · simp [startWithPreset, startInterval, animate, hphase]

/-- C3 at a state left over from an earlier session, phase duration 5. -/
theorem start_resets_session_witness :
    ((togglePlay { initial 0 0 1 false with
          phaseTime := 5, count := 2, countdown := 1, totalTime := 77,
          timeLimitReached := true, sessionComplete := true } 9).isPlaying = true ∧
      (togglePlay { initial 0 0 1 false with
          phaseTime := 5, count := 2, countdown := 1, totalTime := 77,
          timeLimitReached := true, sessionComplete := true } 9).hasStarted = true ∧
      (togglePlay { initial 0 0 1 false with
          phaseTime := 5, count := 2, countdown := 1, totalTime := 77,
          timeLimitReached := true, sessionComplete := true } 9).count = 0 ∧
      (togglePlay { initial 0 0 1 false with
          phaseTime := 5, count := 2, countdown := 1, totalTime := 77,
          timeLimitReached := true, sessionComplete := true } 9).countdown = 5 ∧
      (togglePlay { initial 0 0 1 false with
          phaseTime := 5, count := 2, countdown := 1, totalTime := 77,
          timeLimitReached := true, sessionComplete := true } 9).totalTime = 0 ∧
      (togglePlay { initial 0 0 1 false with
          phaseTime := 5, count := 2, countdown := 1, totalTime := 77,
          timeLimitReached := true, sessionComplete := true } 9).timeLimitReached = false ∧
      (togglePlay { initial 0 0 1 false with
          phaseTime := 5, count := 2, countdown := 1, totalTime := 77,
          timeLimitReached := true, sessionComplete := true } 9).sessionComplete = false) :=
  (start_resets_session { initial 0 0 1 false with
      phaseTime := 5, count := 2, countdown := 1, totalTime := 77,
      timeLimitReached := true, sessionComplete := true } 9 2 5 rfl rfl).1

/-- C4. In every reachable state, sessionComplete = true implies
isPlaying = false and timeLimitReached = true. -/
theorem complete_implies_stopped_and_limit (s : State) (h : Reachable s)
    (hc : s.sessionComplete = true) :
    s.isPlaying = false ∧ s.timeLimitReached = true :=
  reachable_complete h hc

/-- C4 at the completed session reached by typing the limit 0, starting, and
twelve callback runs. -/
theorem complete_implies_stopped_and_limit_witness :
    (run (initial 0 0 1 false)
        (Event.handleTimeLimitChange "0" :: Event.togglePlay 0 ::
          List.replicate 12 (Event.tick 0))).sessionComplete = true ∧
      (run (initial 0 0 1 false)
        (Event.handleTimeLimitChange "0" :: Event.togglePlay 0 ::
          List.replicate 12 (Event.tick 0))).isPlaying = false ∧
      (run (initial 0 0 1 false)
        (Event.handleTimeLimitChange "0" :: Event.togglePlay 0 ::
          List.replicate 12 (Event.tick 0))).timeLimitReached = true :=
  ⟨by decide,
    complete_implies_stopped_and_limit _
      (reachable_run _ _ (Reachable.init 0 0 1 false) (by simp [Event.wellFormed]))
      (by decide)⟩

/-- C5. For every state whose limit flag is set, the flag is set after one
callback run and after every finite sequence of callback runs. -/
theorem limit_flag_monotone (s : State) (h : s.timeLimitReached = true) :
    (∀ now : ℚ, (tickCallback s now).timeLimitReached = true) ∧
      ∀ nows : List ℚ, (ticks s nows).timeLimitReached = true :=
  ⟨fun now => tickCallback_flag_of_true s now h, fun nows => ticks_flag_of_true nows s h⟩

/-- C5 at a session with limit 0 after its first callback run. -/
theorem limit_flag_monotone_witness :
    (tickCallback (startedSession 4 "0") 0).timeLimitReached = true ∧
      ((∀ now : ℚ,
          (tickCallback (tickCallback (startedSession 4 "0") 0) now).timeLimitReached = true) ∧
        ∀ nows : List ℚ,
          (ticks (tickCallback (startedSession 4 "0") 0) nows).timeLimitReached = true) :=
  ⟨by decide, limit_flag_monotone (tickCallback (startedSession 4 "0") 0) (by decide)⟩

/-- C6. In every reachable state the phase duration P is in [3,6] and the
countdown lies in [0, P]; and every callback run that changes count leaves the
countdown equal to P. -/
theorem countdown_within_phase (s : State) (h : Reachable s) :
    (3 ≤ s.phaseTime ∧ s.phaseTime ≤ 6) ∧
      (0 ≤ s.countdown ∧ s.countdown ≤ s.phaseTime) ∧
      ∀ now : ℚ, (tickCallback s now).count ≠ s.count →
        (tickCallback s now).countdown = s.phaseTime ∧
          (tickCallback s now).phaseTime = s.phaseTime := by
  obtain ⟨h3, h6, h1, hle⟩ := reachable_countdown h
  refine ⟨⟨h3, h6⟩, ⟨by omega, hle⟩, fun now hne => ⟨?_, ?_⟩⟩
  · exact tickCallback_countdown_of_count_ne s now hne
  · rw [tickCallback_eq]

/-- C6 at a running session with phase duration 3 whose next callback run
changes the phase. -/
theorem countdown_within_phase_witness :
    (tickCallback (run (initial 0 0 1 false)
          [Event.phaseTimeInput 3, Event.togglePlay 0, Event.tick 1, Event.tick 2]) 3).count ≠
        (run (initial 0 0 1 false)
          [Event.phaseTimeInput 3, Event.togglePlay 0, Event.tick 1, Event.tick 2]).count ∧
      (tickCallback (run (initial 0 0 1 false)
          [Event.phaseTimeInput 3, Event.togglePlay 0, Event.tick 1, Event.tick 2]) 3).countdown =
        (run (initial 0 0 1 false)
          [Event.phaseTimeInput 3, Event.togglePlay 0, Event.tick 1, Event.tick 2]).phaseTime :=
  ⟨by decide,
    ((countdown_within_phase _
      (reachable_run [Event.phaseTimeInput 3, Event.togglePlay 0, Event.tick 1, Event.tick 2] _
        (Reachable.init 0 0 1 false) (by simp [Event.wellFormed]))).2.2 3 (by decide)).1⟩

/-- C7 (counterexample). The load-time state is idle, and one run of the
interval callback on it changes the session state: totalTime goes from 0 to 1
and the countdown from 4 to 3. -/
theorem tick_while_idle_counterexample :
    (initial 0 0 1 false).isPlaying = false ∧ (initial 0 0 1 false).hasStarted = false ∧
      sessionView (tickCallback (initial 0 0 1 false) 0) ≠ sessionView (initial 0 0 1 false) ∧
      (initial 0 0 1 false).totalTime = 0 ∧
      (tickCallback (initial 0 0 1 false) 0).totalTime = 1 := by
  decide

/-- C7 (amended). In every reachable idle state (isPlaying = false,
hasStarted = false) the interval timer is not armed, so the timer does not
run the callback there and the state stays as it is. -/
theorem idle_timer_not_armed (s : State) (h : Reachable s) (hidle : s.isPlaying = false)
    (_hfresh : s.hasStarted = false) :
    s.interval = false ∧ ∀ now : ℚ, intervalFires s now = s := by
  have hi : s.interval = false := by rw [reachable_interval h, hidle]
  exact ⟨hi, fun now => by simp [intervalFires, hi]⟩

/-- C7 (amended) at the state after a session was started and stopped. -/
theorem idle_timer_not_armed_witness :
    (run (initial 0 0 1 false)
        [Event.togglePlay 0, Event.tick 1, Event.togglePlay 2]).isPlaying = false ∧
      (run (initial 0 0 1 false)
        [Event.togglePlay 0, Event.tick 1, Event.togglePlay 2]).interval = false ∧
      ∀ now : ℚ,
        intervalFires (run (initial 0 0 1 false)
          [Event.togglePlay 0, Event.tick 1, Event.togglePlay 2]) now =
        run (initial 0 0 1 false) [Event.togglePlay 0, Event.tick 1, Event.togglePlay 2] :=
  ⟨by decide,
    idle_timer_not_armed _
      (reachable_run [Event.togglePlay 0, Event.tick 1, Event.togglePlay 2] _
        (Reachable.init 0 0 1 false) (by simp [Event.wellFormed]))
      (by decide) (by decide)⟩

/-- C8 (counterexample). The page stops a session by `togglePlay`, and on a
playing session two calls in a row do not give the state after one call: the
second call starts a new session, so the session is running again. -/
theorem togglePlay_twice_counterexample :
    (tickCallback (startedSession 4 "5") 1000).isPlaying = true ∧
      sessionView (togglePlay (tickCallback (startedSession 4 "5") 1000) 2000) =
        (false, false, 0, 4, 0, false, false) ∧
      sessionView (togglePlay (togglePlay (tickCallback (startedSession 4 "5") 1000) 2000) 3000) =
        (true, true, 0, 4, 0, false, false) ∧
      sessionView (togglePlay (togglePlay (tickCallback (startedSession 4 "5") 1000) 2000) 3000) ≠
        sessionView (togglePlay (tickCallback (startedSession 4 "5") 1000) 2000) := by
  refine ⟨by decide, by decide, by decide, by decide⟩

/-- C8 (amended). For every playing state, `togglePlay` stops the session: it
leaves isPlaying = false, totalTime = 0, countdown = phaseTime, count = 0,
both flags cleared, hasStarted = false, no pulse start time and the timer
cleared. A second `togglePlay` in a row starts a new session
(isPlaying = true), and a third one stops it again in the state of the first
stop, the time of the last update apart: stopping again after a restart has
the same effect as stopping once. -/
theorem stop_restart_stop (s : State) (t₁ t₂ t₃ : ℚ) (hplay : s.isPlaying = true) :
    ((togglePlay s t₁).isPlaying = false ∧ (togglePlay s t₁).totalTime = 0 ∧
        (togglePlay s t₁).countdown = s.phaseTime ∧ (togglePlay s t₁).count = 0 ∧
        (togglePlay s t₁).sessionComplete = false ∧
        (togglePlay s t₁).timeLimitReached = false ∧
        (togglePlay s t₁).hasStarted = false ∧ (togglePlay s t₁).pulseStartTime = none ∧
        (togglePlay s t₁).interval = false) ∧
      (togglePlay (togglePlay s t₁) t₂).isPlaying = true ∧
      togglePlay (togglePlay (togglePlay s t₁) t₂) t₃ =
        { togglePlay s t₁ with lastStateUpdate := some t₂ } ∧
      sessionView (togglePlay (togglePlay (togglePlay s t₁) t₂) t₃) =
        sessionView (togglePlay s t₁) := by
  refine ⟨?_, ?_, ?_, ?_⟩ <;>
    simp [sessionView, togglePlay, togglePlayStart, togglePlayHalt, startInterval, animate, hplay]

/-- C8 (amended) at a session with limit 5, one second in. -/
theorem stop_restart_stop_witness :
    (togglePlay (tickCallback (startedSession 4 "5") 1000) 2000).isPlaying = false ∧
      (togglePlay (togglePlay (tickCallback (startedSession 4 "5") 1000) 2000) 3000).isPlaying =
        true ∧
      sessionView
          (togglePlay
            (togglePlay (togglePlay (tickCallback (startedSession 4 "5") 1000) 2000) 3000)
            4000) =
        sessionView (togglePlay (tickCallback (startedSession 4 "5") 1000) 2000) :=
  ⟨(stop_restart_stop (tickCallback (startedSession 4 "5") 1000) 2000 3000 4000
      (by decide)).1.1,
    (stop_restart_stop (tickCallback (startedSession 4 "5") 1000) 2000 3000 4000
      (by decide)).2.1,
    (stop_restart_stop (tickCallback (startedSession 4 "5") 1000) 2000 3000 4000
      (by decide)).2.2.2⟩

/-- C9. For every non-running state, the session state after start, reset and
start again equals the session state after the first start, timestamps apart:
for `togglePlay` with the time limit left cleared or typed in again, and for
`startWithPreset` with the same preset; the phase duration is the same too. -/
theorem start_reset_start (s : State) (now₁ now₂ : ℚ) (minutes : Nat)
    (hidle : s.isPlaying = false) :
    sessionView (togglePlay (resetToStart (togglePlay s now₁)) now₂) =
        sessionView (togglePlay s now₁) ∧
      sessionView
          (togglePlay (handleTimeLimitChange (resetToStart (togglePlay s now₁)) s.timeLimit)
            now₂) =
        sessionView (togglePlay s now₁) ∧
      (togglePlay (handleTimeLimitChange (resetToStart (togglePlay s now₁)) s.timeLimit)
          now₂).phaseTime = (togglePlay s now₁).phaseTime ∧
      sessionView (startWithPreset minutes (resetToStart (startWithPreset minutes s now₁)) now₂) =
        sessionView (startWithPreset minutes s now₁) ∧
      startWithPreset minutes (resetToStart (startWithPreset minutes s now₁)) now₁ =
        startWithPreset minutes s now₁ := by
  refine ⟨?_, ?_, ?_, ?_, ?_⟩ <;>
    simp [sessionView, togglePlay, togglePlayStart, togglePlayHalt, startInterval, animate,
      resetToStart, handleTimeLimitChange, startWithPreset, hidle]

/-- C9 at the load-time state with the limit 3 typed in. -/
theorem start_reset_start_witness :
    sessionView
        (togglePlay
          (resetToStart (togglePlay (handleTimeLimitChange (initial 0 0 1 false) "3") 10)) 20) =
      sessionView (togglePlay (handleTimeLimitChange (initial 0 0 1 false) "3") 10) :=
  (start_reset_start (handleTimeLimitChange (initial 0 0 1 false) "3") 10 20 2 rfl).1

/-- C10. For every state, `resetToStart` sets timeLimit to the empty string and
leaves phaseTime and soundEnabled as they are; the halt branch of
`togglePlay` (lines 200-211) leaves timeLimit, phaseTime and soundEnabled as
they are on whatever state it runs; and on a playing state `togglePlay` is
line 181 followed by that branch, so it leaves the three as they are. -/
theorem reset_clears_limit_stop_keeps (s : State) (now : ℚ) :
    ((resetToStart s).timeLimit = "" ∧ (resetToStart s).phaseTime = s.phaseTime ∧
        (resetToStart s).soundEnabled = s.soundEnabled) ∧
      ((togglePlayHalt s).timeLimit = s.timeLimit ∧
        (togglePlayHalt s).phaseTime = s.phaseTime ∧
        (togglePlayHalt s).soundEnabled = s.soundEnabled) ∧
      (s.isPlaying = true →
        togglePlay s now = togglePlayHalt { s with isPlaying := false } ∧
          (togglePlay s now).timeLimit = s.timeLimit ∧
          (togglePlay s now).phaseTime = s.phaseTime ∧
          (togglePlay s now).soundEnabled = s.soundEnabled) := by
  refine ⟨⟨rfl, rfl, rfl⟩, ⟨rfl, rfl, rfl⟩, fun hplay => ?_⟩
  rw [togglePlay_of_playing s now hplay]
  exact ⟨rfl, rfl, rfl, rfl⟩

/-- C10 at a playing session with limit 5 and phase duration 6. -/
theorem reset_clears_limit_stop_keeps_witness :
    (startedSession 6 "5").isPlaying = true ∧
      (togglePlay (startedSession 6 "5") 3).timeLimit = "5" ∧
      (togglePlay (startedSession 6 "5") 3).phaseTime = 6 ∧
      (resetToStart (startedSession 6 "5")).timeLimit = "" ∧
      (resetToStart (startedSession 6 "5")).phaseTime = 6 :=
  ⟨by decide,
    by rw [((reset_clears_limit_stop_keeps (startedSession 6 "5") 3).2.2 (by decide)).2.1]
       decide,
    by rw [((reset_clears_limit_stop_keeps (startedSession 6 "5") 3).2.2 (by decide)).2.2.1]
       decide,
    by decide, by decide⟩

/-- C11 (counterexample). One second into a session with phase duration 4
the state is running with countdown 3, and at the instant of that update
(now = lastStateUpdate) the progress computed by `animate` is 1/4, not 0. -/
theorem progress_at_last_update_counterexample :
    (tickCallback (startedSession 4 "") 1000).isPlaying = true ∧
      (tickCallback (startedSession 4 "") 1000).phaseTime = 4 ∧
      (tickCallback (startedSession 4 "") 1000).countdown = 3 ∧
      (tickCallback (startedSession 4 "") 1000).lastStateUpdate = some 1000 ∧
      animateProgress (tickCallback (startedSession 4 "") 1000) 1000 = some (1 / 4) ∧
      animateProgress (tickCallback (startedSession 4 "") 1000) 1000 ≠ some 0 := by
  have h1 : (tickCallback (startedSession 4 "") 1000).isPlaying = true := by decide
  have h2 : (tickCallback (startedSession 4 "") 1000).phaseTime = 4 := by decide
  have h3 : (tickCallback (startedSession 4 "") 1000).countdown = 3 := by decide
  have h4 : (tickCallback (startedSession 4 "") 1000).lastStateUpdate = some 1000 := rfl
  have h5 : animateProgress (tickCallback (startedSession 4 "") 1000) 1000 = some (1 / 4) := by
    rw [animateProgress_of_playing _ 1000 1000 h1 h4, h2, h3]
    norm_num
  refine ⟨h1, h2, h3, h4, h5, ?_⟩
  rw [h5]
  norm_num

/-- C11 (amended). For every running state with phase duration P in [3,6] and
countdown in [1, P], the progress computed by `animate` at
now = lastStateUpdate is (P - countdown) / P, which is 0 exactly when
countdown = P, and at now = lastStateUpdate + P seconds (1000 * P
milliseconds) it is 1. -/
theorem progress_endpoints (s : State) (last : ℚ) (P : Int) (hplay : s.isPlaying = true)
    (hlast : s.lastStateUpdate = some last) (hP : 3 ≤ P ∧ P ≤ 6) (hphase : s.phaseTime = P)
    (hcd : 1 ≤ s.countdown ∧ s.countdown ≤ P) :
    animateProgress s last = some (((P : ℚ) - (s.countdown : ℚ)) / (P : ℚ)) ∧
      (animateProgress s last = some 0 ↔ s.countdown = P) ∧
      animateProgress s (last + 1000 * (P : ℚ)) = some 1 := by
  obtain ⟨h3, -⟩ := hP
  obtain ⟨hc1, hcP⟩ := hcd
  have hPpos : (0 : ℚ) < (P : ℚ) := by exact_mod_cast (by omega : (0 : Int) < P)
  have hc1q : (1 : ℚ) ≤ (s.countdown : ℚ) := by exact_mod_cast hc1
  have hcPq : (s.countdown : ℚ) ≤ (P : ℚ) := by exact_mod_cast hcP
  have hx0 : (0 : ℚ) ≤ ((P : ℚ) - (s.countdown : ℚ)) / (P : ℚ) :=
    div_nonneg (by linarith) hPpos.le
  have hx1 : ((P : ℚ) - (s.countdown : ℚ)) / (P : ℚ) ≤ 1 := by
    rw [div_le_one hPpos]
    linarith
  have hstart : animateProgress s last = some (((P : ℚ) - (s.countdown : ℚ)) / (P : ℚ)) := by
    rw [animateProgress_of_playing s last last hplay hlast, hphase]
    simp only [sub_self, zero_div, sub_zero]
    rw [min_eq_right hx1, max_eq_right hx0]
  refine ⟨hstart, ?_, ?_⟩
  · rw [hstart]
    constructor
    · intro h
      have h0 : ((P : ℚ) - (s.countdown : ℚ)) / (P : ℚ) = 0 := Option.some.inj h
      rcases div_eq_zero_iff.mp h0 with h' | h'
      · have : (s.countdown : ℚ) = (P : ℚ) := by linarith
        exact_mod_cast this
      · exact absurd h' hPpos.ne'
    · intro h
      rw [h]
      simp
  · rw [animateProgress_of_playing s _ last hplay hlast, hphase]
    have hy : (1 : ℚ) ≤
        ((P : ℚ) - ((s.countdown : ℚ) - (last + 1000 * (P : ℚ) - last) / 1000)) / (P : ℚ) := by
      rw [le_div_iff₀ hPpos]
      have : (last + 1000 * (P : ℚ) - last) / 1000 = (P : ℚ) := by ring
      rw [this]
      linarith
    rw [min_eq_left hy]
    norm_num

/-- C11 (amended) at the start of a session with phase duration 4. -/
theorem progress_endpoints_witness :
    animateProgress (startedSession 4 "") 0 = some ((((4 : Int) : ℚ) -
        (((startedSession 4 "").countdown : Int) : ℚ)) / ((4 : Int) : ℚ)) ∧
      (animateProgress (startedSession 4 "") 0 = some 0 ↔
        (startedSession 4 "").countdown = 4) ∧
      animateProgress (startedSession 4 "") (0 + 1000 * ((4 : Int) : ℚ)) = some 1 :=
  progress_endpoints (startedSession 4 "") 0 4 (by decide) rfl ⟨by decide, by decide⟩
    (by decide) ⟨by decide, by decide⟩

/-- C12. With prefersReducedMotion = true, a started session and a viewport
that is not empty, `drawScene` in phase 1 (Hold) or 3 (Wait) paints a square
of size sizeWithoutBreath * (1 + 0.06 * 0.3), whatever the timestamp, the
progress, the trail flag, the pulse start time and the values of the sine
and cosine are. -/
theorem reduced_motion_freezes_idle_size (m : MathFns) (c : Canvas) (s : State)
    (progress timestamp : ℚ) (phase : Nat) (showTrail : Bool) (pulse : Option ℚ)
    (hmotion : s.prefersReducedMotion = true) (hstarted : s.hasStarted = true)
    (hphase : phase = 1 ∨ phase = 3) (hwidth : sceneWidth c s ≠ 0)
    (hheight : sceneHeight c s ≠ 0) :
    ∃ plan : DrawPlan,
      drawScene m c { s with pulseStartTime := pulse } progress phase showTrail timestamp =
          DrawResult.drawn plan ∧
        plan.size = sizeWithoutBreath c s * (1 + 6 / 100 * (3 / 10)) :=
  drawScene_reduced_size m c { s with pulseStartTime := pulse } progress timestamp phase
    showTrail hmotion hstarted hphase hwidth hheight

/-- C12 on a 300 by 400 viewport in the Hold phase, with a pulse under way. -/
theorem reduced_motion_freezes_idle_size_witness :
    ∃ plan : DrawPlan,
      drawScene ⟨fun x => x, fun x => 1 - x, 22 / 7⟩ ⟨300, 400, 300, 400⟩
          { (ticks (startedSession 4 "") [1000, 2000, 3000, 4000]) with
            viewportWidth := 300, viewportHeight := 400, prefersReducedMotion := true,
            pulseStartTime := some 4000 }
          (1 / 4) 1 true 4100 = DrawResult.drawn plan ∧
        plan.size =
          sizeWithoutBreath ⟨300, 400, 300, 400⟩
            { (ticks (startedSession 4 "") [1000, 2000, 3000, 4000]) with
              viewportWidth := 300, viewportHeight := 400, prefersReducedMotion := true } *
            (1 + 6 / 100 * (3 / 10)) :=
  reduced_motion_freezes_idle_size ⟨fun x => x, fun x => 1 - x, 22 / 7⟩ ⟨300, 400, 300, 400⟩
    { (ticks (startedSession 4 "") [1000, 2000, 3000, 4000]) with
      viewportWidth := 300, viewportHeight := 400, prefersReducedMotion := true }
    (1 / 4) 4100 1 true (some 4000) rfl (by decide) (Or.inl rfl)
    (by norm_num [sceneWidth, orElse]) (by norm_num [sceneHeight, orElse])

/-- C14. In every reachable state hasStarted = isPlaying. So in a reachable
state that is neither playing nor complete, hasStarted = false and
sessionComplete = false, and every call of `drawScene` that gets past the
viewport check takes the draw-nothing branch; when sessionComplete = true it
never takes that branch. -/
theorem hasStarted_eq_isPlaying (s : State) (h : Reachable s) :
    s.hasStarted = s.isPlaying ∧
      (s.isPlaying = false → s.sessionComplete = false →
        (s.hasStarted = false ∧ s.sessionComplete = false) ∧
          ∀ (m : MathFns) (c : Canvas) (progress : ℚ) (phase : Nat) (showTrail : Bool)
            (timestamp : ℚ),
            drawScene m c s progress phase showTrail timestamp =
              if sceneWidth c s = 0 ∨ sceneHeight c s = 0 then DrawResult.skipped
              else DrawResult.cleared) ∧
      (s.sessionComplete = true →
        ∀ (m : MathFns) (c : Canvas) (progress : ℚ) (phase : Nat) (showTrail : Bool)
          (timestamp : ℚ),
          drawScene m c s progress phase showTrail timestamp ≠ DrawResult.cleared) := by
  have hs := reachable_hasStarted h
  refine ⟨hs, fun hidle hc => ⟨⟨by rw [hs, hidle], hc⟩, ?_⟩, fun hc => ?_⟩
  · intro m c progress phase showTrail timestamp
    exact drawScene_of_idle m c s progress phase showTrail timestamp (by rw [hs, hidle]) hc
  · intro m c progress phase showTrail timestamp
    exact drawScene_of_complete m c s progress phase showTrail timestamp hc

/-- C14 at the state after a session was started and stopped, on a 300 by 400
viewport. -/
theorem hasStarted_eq_isPlaying_witness :
    (run (initial 300 400 1 false)
        [Event.togglePlay 0, Event.tick 1000, Event.togglePlay 1500]).hasStarted = false ∧
      idleDraw ⟨fun x => x, fun x => 1 - x, 22 / 7⟩ ⟨300, 400, 300, 400⟩
          (run (initial 300 400 1 false)
            [Event.togglePlay 0, Event.tick 1000, Event.togglePlay 1500]) 1600 =
        if sceneWidth ⟨300, 400, 300, 400⟩
              (run (initial 300 400 1 false)
                [Event.togglePlay 0, Event.tick 1000, Event.togglePlay 1500]) = 0 ∨
            sceneHeight ⟨300, 400, 300, 400⟩
              (run (initial 300 400 1 false)
                [Event.togglePlay 0, Event.tick 1000, Event.togglePlay 1500]) = 0
        then DrawResult.skipped else DrawResult.cleared :=
  ⟨(((hasStarted_eq_isPlaying _
        (reachable_run [Event.togglePlay 0, Event.tick 1000, Event.togglePlay 1500] _
          (Reachable.init 300 400 1 false) (by simp [Event.wellFormed]))).2.1
      (by decide) (by decide)).1).1,
    ((hasStarted_eq_isPlaying _
        (reachable_run [Event.togglePlay 0, Event.tick 1000, Event.togglePlay 1500] _
          (Reachable.init 300 400 1 false) (by simp [Event.wellFormed]))).2.1
      (by decide) (by decide)).2 _ _ _ _ _ _⟩

/-- C13. For every phase duration P in [3,6] and every limit of L minutes given
as a non-empty string of decimal digits, let T = completionTick P L. T is the
least t >= max(1, 60*L) with t mod (4*P) = 3*P. A session started by
`togglePlay` is still running after every number of callback runs below T,
and after exactly T runs it has sessionComplete = true, isPlaying = false,
count = 3, countdown = P and totalTime = T, where 60*L <= T < 60*L + 4*P. The
same holds for a session started by `startWithPreset` with one of the presets
2, 5 and 10. Numbers are exact integers here. -/
theorem completion_tick_closed_form (s : State) (now : ℚ) (P L : Nat) (hP : 3 ≤ P ∧ P ≤ 6)
    (hphase : s.phaseTime = (P : Int)) (hidle : s.isPlaying = false)
    (hne : s.timeLimit.data ≠ [])
    (hdig : ∀ c ∈ s.timeLimit.data, 48 ≤ c.toNat ∧ c.toNat ≤ 57)
    (hL : decimalValue s.timeLimit.data = L) :
    (max 1 (60 * L) ≤ completionTick P L ∧ completionTick P L % (4 * P) = 3 * P ∧
        ∀ t, max 1 (60 * L) ≤ t → t % (4 * P) = 3 * P → completionTick P L ≤ t) ∧
      ((∀ nows : List ℚ, nows.length < completionTick P L →
          (ticks (togglePlay s now) nows).isPlaying = true ∧
            (ticks (togglePlay s now) nows).sessionComplete = false) ∧
        ∀ nows : List ℚ, nows.length = completionTick P L →
          (ticks (togglePlay s now) nows).sessionComplete = true ∧
            (ticks (togglePlay s now) nows).isPlaying = false ∧
            (ticks (togglePlay s now) nows).count = 3 ∧
            (ticks (togglePlay s now) nows).countdown = (P : Int) ∧
            (ticks (togglePlay s now) nows).totalTime = completionTick P L) ∧
      (60 * L ≤ completionTick P L ∧ completionTick P L < 60 * L + 4 * P) ∧
      ∀ minutes : Nat, minutes = 2 ∨ minutes = 5 ∨ minutes = 10 →
        CompletesAtTick (startWithPreset minutes s now) P (completionTick P minutes) := by
  obtain ⟨hge, hmod, hleast, hlow, hhigh⟩ := completionTick_spec P L hP
  have hne' : s.timeLimit ≠ "" := fun h => hne (by rw [h])
  have hparse : parseInt s.timeLimit = some (L : Int) := by
    rw [parseInt_digits s.timeLimit hne hdig, hL]
  refine ⟨⟨hge, hmod, hleast⟩, ?_, ⟨hlow, hhigh⟩, fun minutes hm => ?_⟩
  · exact completes_of_running P L hP _ (togglePlay_running s now P L hidle hphase hne' hparse)
  · exact completes_of_running P minutes hP _ (startWithPreset_running s now P minutes hphase hm)

/-- C13 at phase duration 4 with the limit 2 typed in: the session runs through
tick 123 and completes at tick 124. -/
theorem completion_tick_closed_form_witness :
    completionTick 4 2 = 124 ∧
      (ticks (togglePlay (handleTimeLimitChange (initial 0 0 1 false) "2") 0)
          (List.replicate 123 0)).isPlaying = true ∧
      (ticks (togglePlay (handleTimeLimitChange (initial 0 0 1 false) "2") 0)
          (List.replicate 124 0)).sessionComplete = true ∧
      (ticks (togglePlay (handleTimeLimitChange (initial 0 0 1 false) "2") 0)
          (List.replicate 124 0)).totalTime = completionTick 4 2 :=
  ⟨by decide,
    ((completion_tick_closed_form (handleTimeLimitChange (initial 0 0 1 false) "2") 0 4 2
        ⟨by decide, by decide⟩ rfl rfl (by decide) (by decide) (by decide)).2.1.1
      (List.replicate 123 0) (by rw [List.length_replicate]; decide)).1,
    ((completion_tick_closed_form (handleTimeLimitChange (initial 0 0 1 false) "2") 0 4 2
        ⟨by decide, by decide⟩ rfl rfl (by decide) (by decide) (by decide)).2.1.2
      (List.replicate 124 0) (by rw [List.length_replicate]; decide)).1,
    ((completion_tick_closed_form (handleTimeLimitChange (initial 0 0 1 false) "2") 0 4 2
        ⟨by decide, by decide⟩ rfl rfl (by decide) (by decide) (by decide)).2.1.2
      (List.replicate 124 0) (by rw [List.length_replicate]; decide)).2.2.2.2⟩

end Box5n4
